import Mathlib

/-!
Shallow embedding of the ASI-GO-2 core (cognition_base.py, analyst.py,
researcher.py) and verification of the frozen claims about it.

Modelling conventions:
* Python dict records become Lean structures; fields read with
  `d.get(key, default)` in the source become `Option` fields read with
  `Option.getD` where absence matters.
* Python floats (significance, confidence) become `ℚ`; every comparison the
  code performs on them is exact at the values the code uses.
* The external LLM collaborator (`llm.query`) is modelled as a parameter of
  type `Except String String`: `.ok response` for a returned text,
  `.error e` for a raised exception with message `e`.
* File-system effects are modelled explicitly: reading the knowledge file is
  a parameter `Option (Except String Knowledge)` (absent / parse failure /
  parsed value), and `save_knowledge` is modelled as a Boolean
  "write attempted" flag returned by `add_insight`.
* Timestamps (`datetime.now().isoformat()`) are a `String` parameter.
-/

namespace ASIGO

/-- A strategy record of the knowledge catalogue, as seeded in
`CognitionBase._load_knowledge` (cognition_base.py). The Python key
`example` is spelled `example_` because `example` is a Lean keyword. -/
structure Strategy where
  name : String
  description : String
  applicable_to : List String
  example_ : String
deriving Repr, DecidableEq

/-- A common-error record of the seed catalogue (cognition_base.py). -/
structure ErrorPattern where
  type : String
  description : String
  prevention : String
deriving Repr, DecidableEq

/-- An optimization-technique record of the seed catalogue
(cognition_base.py). -/
structure Technique where
  name : String
  description : String
  use_case : String
deriving Repr, DecidableEq

/-- An insight record as built by `Analyst._extract_insights` and stamped by
`CognitionBase.add_insight`. The `strategy` field is a Python list of
strategy names (`proposal.get("strategies_used", [])`); `significance` is
read in the code with `insight.get("significance", 0)`, hence `Option`;
`timestamp` is absent until `add_insight` assigns it. -/
structure Insight where
  goal : String
  strategy : List String
  success : Bool
  key_learning : String
  significance : Option ℚ
  timestamp : Option String
deriving Repr, DecidableEq

/-- The knowledge catalogue: a mapping from category name to a list of
records. The four categories the program uses are fields; `learned_patterns`
is `Option` because that dict key is absent until the first promoted insight
creates it (`add_insight`, cognition_base.py line 108). -/
structure Knowledge where
  strategies : List Strategy
  common_errors : List ErrorPattern
  optimization_techniques : List Technique
  learned_patterns : Option (List Insight)
deriving Repr, DecidableEq

/-- First seed strategy (cognition_base.py lines 32-37). -/
def divide_and_conquer : Strategy :=
  { name := "Divide and Conquer"
  , description := "Break complex problems into smaller subproblems"
  , applicable_to := ["optimization", "search", "mathematical problems"]
  , example_ := "Finding prime numbers by checking divisibility up to sqrt(n)" }

/-- Second seed strategy (cognition_base.py lines 38-43). -/
def iterative_refinement : Strategy :=
  { name := "Iterative Refinement"
  , description := "Start with a basic solution and improve it iteratively"
  , applicable_to := ["algorithms", "numerical methods", "approximations"]
  , example_ := "Newton\x27s method for finding roots" }

/-- Third seed strategy (cognition_base.py lines 44-49). -/
def pattern_recognition : Strategy :=
  { name := "Pattern Recognition"
  , description := "Identify patterns in the problem to simplify the solution"
  , applicable_to := ["sequences", "mathematical series", "data analysis"]
  , example_ := "Recognizing Fibonacci patterns in problems" }

/-- The seed catalogue returned by `CognitionBase._load_knowledge` when the
knowledge file is absent or unreadable (cognition_base.py lines 30-75).
Strings are copied verbatim from the source. -/
def seed_knowledge : Knowledge :=
  { strategies := [divide_and_conquer, iterative_refinement, pattern_recognition]
  , common_errors :=
      [ { type := "Off-by-one errors"
        , description := "Errors in loop boundaries or array indices"
        , prevention := "Carefully check loop conditions and test edge cases" }
      , { type := "Integer overflow"
        , description := "Results exceeding data type limits"
        , prevention := "Use appropriate data types and check for overflow conditions" } ]
  , optimization_techniques :=
      [ { name := "Memoization"
        , description := "Cache results of expensive function calls"
        , use_case := "Recursive algorithms with overlapping subproblems" }
      , { name := "Early termination"
        , description := "Stop computation when result is found or impossible"
        , use_case := "Search algorithms and validation checks" } ]
  , learned_patterns := none }

/-- `CognitionBase._load_knowledge` (cognition_base.py lines 20-75) with the
file system made explicit: `none` means `os.path.exists` is false,
`some (.error e)` means opening/parsing raised (caught, logged, fall through
to the seed), `some (.ok k)` means the file parsed to catalogue `k`. -/
def load_knowledge (file : Option (Except String Knowledge)) : Knowledge :=
  match file with
  | some (Except.ok k) => k
  | some (Except.error _) => seed_knowledge
  | none => seed_knowledge

/-- Mutable state of a `CognitionBase` object: the catalogue and the
session insight log (cognition_base.py lines 15-18). -/
structure CognitionBase where
  knowledge : Knowledge
  session_insights : List Insight
deriving Repr, DecidableEq

/-- The Python `str.lower` restricted to the ASCII strings the program uses,
written by structural recursion over the character list so that it reduces
in the kernel. -/
def py_lower (s : String) : String := String.mk (s.toList.map Char.toLower)

/-- Word scanner behind `py_split`: collects maximal runs of non-whitespace
characters, dropping empty pieces, exactly like the argumentless
Python `str.split()`. `acc` holds the current word reversed. -/
def py_words (cs : List Char) (acc : List Char) : List String :=
  match cs with
  | [] => if acc.isEmpty then [] else [String.mk acc.reverse]
  | c :: rest =>
    if c.isWhitespace then
      if acc.isEmpty then py_words rest []
      else String.mk acc.reverse :: py_words rest []
    else py_words rest (c :: acc)

/-- The Python `str.split()` with no argument: split on whitespace runs and
drop empty pieces. -/
def py_split (s : String) : List String := py_words s.toList []

/-- Substring scan behind `py_in`: does `needle` occur as a contiguous run
inside `hay`? -/
def char_list_in (needle hay : List Char) : Bool :=
  match hay with
  | [] => needle.isEmpty
  | _ :: rest => needle.isPrefixOf hay || char_list_in needle rest

/-- The Python substring test `needle in hay` on strings. -/
def py_in (needle hay : String) : Bool :=
  char_list_in needle.toList hay.toList

/-- The inclusion test of `CognitionBase.get_relevant_strategies`
(cognition_base.py lines 93-97): a strategy is appended (once, the loop
breaks) iff some tag in `applicable_to` contains some keyword of the
description as a case-insensitive substring. -/
def strategy_matches (keywords : List String) (strategy : Strategy) : Bool :=
  strategy.applicable_to.any
    (fun applicable => keywords.any (fun keyword => py_in keyword (py_lower applicable)))

/-- `CognitionBase.get_relevant_strategies` (cognition_base.py lines 86-99).
The source loop appends each catalogue strategy at most once (the inner
`break`) in catalogue order, i.e. it is a filter. No state is read other
than the catalogue and no state is written. -/
def get_relevant_strategies (cb : CognitionBase) (problem_description : String) :
    List Strategy :=
  let keywords := py_split (py_lower problem_description)
  cb.knowledge.strategies.filter (strategy_matches keywords)

/-- `CognitionBase.add_insight` (cognition_base.py lines 101-111): stamp the
timestamp, append to the session log unconditionally; when
`insight.get("significance", 0) > 0.7`, also append to the
`learned_patterns` category (created if absent) and attempt a persistence
write (`save_knowledge`; its own failure is swallowed). The returned Boolean
records whether that write was attempted. -/
def add_insight (cb : CognitionBase) (insight : Insight) (now : String) :
    CognitionBase × Bool :=
  let stamped : Insight := { insight with timestamp := some now }
  let cb1 : CognitionBase :=
    { cb with session_insights := cb.session_insights ++ [stamped] }
  if stamped.significance.getD 0 > 0.7 then
    ({ cb1 with
        knowledge :=
          { cb1.knowledge with
              learned_patterns :=
                some (cb1.knowledge.learned_patterns.getD [] ++ [stamped]) } },
      true)
  else
    (cb1, false)

/-- The record `CognitionBase.get_session_summary` is meant to return. -/
structure SessionSummary where
  total_insights : Nat
  insights : List Insight
  strategies_used : List (List String)
deriving Repr, DecidableEq

/-- `CognitionBase.get_session_summary` (cognition_base.py lines 113-119).
The source builds
`set(i.get("strategy") for i in self.session_insights if i.get("strategy"))`.
Every insight the program ever passes to `add_insight` carries a Python
list under `"strategy"` (`Analyst._extract_insights` line 93), an empty list
is falsy and filtered out, and adding a non-empty list to a Python set
raises `TypeError: unhashable type: list`. So the call raises exactly when
some logged insight has a non-empty strategy list, and otherwise returns the
summary with an empty strategy set. -/
def get_session_summary (cb : CognitionBase) : Except String SessionSummary :=
  if cb.session_insights.any (fun i => !i.strategy.isEmpty) then
    Except.error "TypeError: unhashable type: \x27list\x27"
  else
    Except.ok
      { total_insights := cb.session_insights.length
      , insights := cb.session_insights
      , strategies_used := [] }

/-- The test result consumed by the analyst (external collaborator output):
`{success, output, error, issues}` with the optional fields read through
`.get` in the source. -/
structure TestResult where
  success : Bool
  output : Option String
  error : Option String
  issues : List String
deriving Repr, DecidableEq

/-- The validation record consumed by the analyst:
`{meets_goal, confidence, notes}`. -/
structure Validation where
  meets_goal : Bool
  confidence : ℚ
  notes : List String
deriving Repr, DecidableEq

/-- A solution proposal as built by `Researcher.propose_solution` /
`Researcher.refine_proposal` (researcher.py lines 53-58 and 92-98);
`refined_from` is absent on a fresh proposal. -/
structure Proposal where
  goal : String
  solution : String
  strategies_used : List String
  iteration : Nat
  refined_from : Option Nat
deriving Repr, DecidableEq

/-- An analysis record as built by `Analyst.analyze_results`
(analyst.py lines 60-66 and 78-84). -/
structure Analysis where
  iteration : Nat
  success : Bool
  analysis : String
  test_result : TestResult
  validation : Validation
deriving Repr, DecidableEq

/-- Mutable state of an `Analyst` object: the analysis history plus its
(owning, for our purposes) reference to the cognition base
(analyst.py lines 14-17). -/
structure Analyst where
  analyses : List Analysis
  cognition_base : CognitionBase
deriving Repr, DecidableEq

/-- The insight built by `Analyst._extract_insights` (analyst.py lines
91-97): `key_learning` is the first 200 characters of the analysis text, or
a placeholder when that text is empty (falsy); `significance` is 0.5 on
success and 0.3 on failure; `strategy` is the `strategies_used` of the proposal
list. In the source the construction sits in a `try` that can only fail on
malformed dicts, which the typed model excludes. -/
def extract_insight (analysis : Analysis) (proposal : Proposal) : Insight :=
  { goal := proposal.goal
  , strategy := proposal.strategies_used
  , success := analysis.success
  , key_learning :=
      if analysis.analysis = "" then "No analysis available"
      else analysis.analysis.take 200
  , significance := some (if analysis.success then 0.5 else 0.3)
  , timestamp := none }

/-- `Analyst.analyze_results` (analyst.py lines 19-86) with the LLM call
made explicit. On `.ok response`: build the analysis, append it to the
history, extract an insight and feed it to `add_insight`, return the
analysis. On `.error e` (the `except` branch, lines 75-86): build the
degraded analysis whose text states the failure and the raw outcome,
append it to the history — note `_extract_insights` is NOT called on this
path — and return it. -/
def analyze_results (a : Analyst) (proposal : Proposal) (test_result : TestResult)
    (validation : Validation) (llm : Except String String) (now : String) :
    Analyst × Analysis :=
  match llm with
  | Except.ok response =>
    let analysis : Analysis :=
      { iteration := proposal.iteration
      , success := test_result.success
      , analysis := response
      , test_result := test_result
      , validation := validation }
    let a1 : Analyst := { a with analyses := a.analyses ++ [analysis] }
    let insight := extract_insight analysis proposal
    let cb := (add_insight a1.cognition_base insight now).1
    ({ a1 with cognition_base := cb }, analysis)
  | Except.error e =>
    let basic_analysis : Analysis :=
      { iteration := proposal.iteration
      , success := test_result.success
      , analysis :=
          "Analysis failed: " ++ e ++ ". Test result: " ++
            (if test_result.success then "Success" else "Failed")
      , test_result := test_result
      , validation := validation }
    ({ a with analyses := a.analyses ++ [basic_analysis] }, basic_analysis)

/-- One `analyze_results` call bundled with its external inputs, for
reasoning about call sequences. -/
structure AnalyzeCall where
  proposal : Proposal
  test_result : TestResult
  validation : Validation
  llm : Except String String
  now : String

/-- Run a sequence of `analyze_results` calls, threading the analyst
state. -/
def run_analyses (a : Analyst) (calls : List AnalyzeCall) : Analyst :=
  match calls with
  | [] => a
  | c :: rest =>
      run_analyses (analyze_results a c.proposal c.test_result c.validation c.llm c.now).1 rest

/-- `Analyst.recommend_next_action` (analyst.py lines 142-156): a decision
table over the most recent analysis (`analyses[-1]`) and the history
length. Strings are copied verbatim from the source. -/
def recommend_next_action (analyses : List Analysis) : String :=
  match analyses.getLast? with
  | none => "No data available. Start with a new proposal."
  | some last_analysis =>
    if last_analysis.success && last_analysis.validation.meets_goal then
      "Goal achieved! Consider optimizing the solution or trying a more complex goal."
    else if last_analysis.success then
      "Solution runs but doesn\x27t fully meet the goal. Refine the logic."
    else if analyses.length ≥ 5 then
      "Multiple attempts failed. Consider revising the goal or approach fundamentally."
    else
      "Refine the current approach based on the error feedback."

/-- Mutable state of a `Researcher` object: the proposal history plus its
reference to the cognition base (researcher.py lines 14-17). -/
structure Researcher where
  proposal_history : List Proposal
  cognition_base : CognitionBase
deriving Repr, DecidableEq

/-- `Researcher.propose_solution` (researcher.py lines 19-67) with the LLM
call explicit. Strategies are retrieved from the cognition base; on
`.ok response` a proposal with `iteration = len(history) + 1` is appended
and returned; on `.error e` the exception is re-raised (lines 65-67) before
any append, so the state is unchanged — modelled by returning `.error e`
with no new state. -/
def propose_solution (r : Researcher) (goal : String) (llm : Except String String) :
    Except String (Researcher × Proposal) :=
  let strategies := get_relevant_strategies r.cognition_base goal
  match llm with
  | Except.error e => Except.error e
  | Except.ok response =>
    let proposal : Proposal :=
      { goal := goal
      , solution := response
      , strategies_used := strategies.map Strategy.name
      , iteration := r.proposal_history.length + 1
      , refined_from := none }
    Except.ok ({ r with proposal_history := r.proposal_history ++ [proposal] }, proposal)

/-- `Researcher.refine_proposal` (researcher.py lines 69-105) with the LLM
call explicit. The feedback only feeds the prompt; on `.ok response` the
refined proposal copies the goal and `strategies_used` from the original,
sets `iteration = proposal.iteration + 1` and
`refined_from = proposal.iteration`, is appended and returned; on
`.error e` the exception propagates before any append. -/
def refine_proposal (r : Researcher) (proposal : Proposal) (feedback : TestResult)
    (llm : Except String String) : Except String (Researcher × Proposal) :=
  match llm with
  | Except.error e => Except.error e
  | Except.ok response =>
    let refined_proposal : Proposal :=
      { goal := proposal.goal
      , solution := response
      , strategies_used := proposal.strategies_used
      , iteration := proposal.iteration + 1
      , refined_from := some proposal.iteration }
    Except.ok
      ({ r with proposal_history := r.proposal_history ++ [refined_proposal] },
        refined_proposal)

/-! Concrete fixtures used by witnesses and counterexamples. -/

/-- A fresh cognition base as built by `CognitionBase.__init__` when no
knowledge file exists: seed catalogue, empty session log. -/
def seed_cb : CognitionBase :=
  { knowledge := seed_knowledge, session_insights := [] }

/-- A concrete external test result (a failing run). -/
def sample_test_result : TestResult :=
  { success := false
  , output := none
  , error := some "ZeroDivisionError: division by zero"
  , issues := [] }

/-- A concrete external validation record. -/
def sample_validation : Validation :=
  { meets_goal := false, confidence := 0, notes := [] }

/-- A concrete proposal as `propose_solution` would build for a goal that
matched the "Divide and Conquer" strategy. -/
def sample_proposal : Proposal :=
  { goal := "find the first 10 prime numbers"
  , solution := "def primes(): ..."
  , strategies_used := ["Divide and Conquer"]
  , iteration := 1
  , refined_from := none }

/-- A fresh analyst over a fresh cognition base. -/
def empty_analyst : Analyst :=
  { analyses := [], cognition_base := seed_cb }

/-- A concrete failed analysis record. -/
def failed_analysis : Analysis :=
  { iteration := 1
  , success := false
  , analysis := "The run failed"
  , test_result := sample_test_result
  , validation := sample_validation }

/-- A concrete insight whose significance clears the 0.7 promotion gate. -/
def high_insight : Insight :=
  { goal := "find the first 10 prime numbers"
  , strategy := []
  , success := true
  , key_learning := "divide the range"
  , significance := some 0.8
  , timestamp := none }

/-- Did the modelled generator call return normally? -/
def generator_ok (llm : Except String String) : Bool :=
  match llm with
  | Except.ok _ => true
  | Except.error _ => false

/-! Helper lemmas shared across claims. -/

/-- Each `analyze_results` call appends exactly one analysis to the history,
on the success path and on the failure path alike. -/
theorem analyze_results_analyses_length (a : Analyst) (p : Proposal) (t : TestResult)
    (v : Validation) (llm : Except String String) (now : String) :
    (analyze_results a p t v llm now).1.analyses.length = a.analyses.length + 1 := by
  cases llm <;> simp [analyze_results]

/-- Each `analyze_results` call appends exactly one insight to the session
log when the generator call succeeds, and none when it fails (the `except`
branch of analyst.py lines 75-86 never calls `_extract_insights`). -/
theorem analyze_results_insights_length (a : Analyst) (p : Proposal) (t : TestResult)
    (v : Validation) (llm : Except String String) (now : String) :
    (analyze_results a p t v llm now).1.cognition_base.session_insights.length
      = a.cognition_base.session_insights.length + (if generator_ok llm then 1 else 0) := by
  cases llm with
  | error e => simp [analyze_results, generator_ok]
  | ok s =>
    simp only [analyze_results, generator_ok, add_insight]
    split <;> simp

/-! Claim theorems. -/

/-- Claim C1: `add_insight` appends the timestamped insight to the session
log unconditionally; when `insight.get("significance", 0) > 0.7` the
`learned_patterns` category of the catalogue grows in length by exactly one
(the category being created if absent, since the length is read through
`getD []`) and the persistence write is attempted; when the significance is
at most 0.7 the category is unchanged and no write is attempted. -/
theorem add_insight_spec (cb : CognitionBase) (insight : Insight) (now : String) :
    (add_insight cb insight now).1.session_insights
        = cb.session_insights ++ [{ insight with timestamp := some now }]
    ∧ (insight.significance.getD 0 > 0.7 →
        ((add_insight cb insight now).1.knowledge.learned_patterns.getD []).length
            = (cb.knowledge.learned_patterns.getD []).length + 1
          ∧ (add_insight cb insight now).2 = true)
    ∧ (insight.significance.getD 0 ≤ 0.7 →
        (add_insight cb insight now).1.knowledge.learned_patterns
            = cb.knowledge.learned_patterns
          ∧ (add_insight cb insight now).2 = false) := by
  refine ⟨?_, ?_, ?_⟩
  · by_cases h : insight.significance.getD 0 > 0.7 <;> simp [add_insight, h]
  · intro h
    simp [add_insight, h]
  · intro h
    have h2 : ¬ insight.significance.getD 0 > 0.7 := not_lt.mpr h
    simp [add_insight, h2]

/-- Witness for C1 at a concrete input: an insight of significance 0.8 on a
fresh cognition base grows `learned_patterns` from length 0 to length 1 and
triggers the persistence write. -/
theorem add_insight_spec_witness :
    ((add_insight seed_cb high_insight "2024-01-01T00:00:00").1.knowledge.learned_patterns.getD
        []).length
      = (seed_cb.knowledge.learned_patterns.getD []).length + 1
    ∧ (add_insight seed_cb high_insight "2024-01-01T00:00:00").2 = true :=
  (add_insight_spec seed_cb high_insight "2024-01-01T00:00:00").2.1
    (by simp [high_insight]; norm_num)

/-- Claim C2 counterexample: a single `analyze_results` call on a fresh
analyst with a failing generator records one analysis but zero session
insights, so the `total_insights` returned by `get_session_summary` is 0
while the number of analyze calls made is 1. -/
theorem analyze_failure_drops_insight :
    ((analyze_results empty_analyst sample_proposal sample_test_result sample_validation
          (Except.error "Connection error") "2024-01-01T00:00:00").1).analyses.length = 1
    ∧ get_session_summary
        ((analyze_results empty_analyst sample_proposal sample_test_result sample_validation
            (Except.error "Connection error") "2024-01-01T00:00:00").1).cognition_base
        = Except.ok { total_insights := 0, insights := [], strategies_used := [] } := by
  exact ⟨rfl, rfl⟩

/-- Claim C2 (amended): over any sequence of `analyze_results` calls the
analysis history grows by exactly one per call, but the session insight log
grows by one only for the calls whose generator call succeeded; a call with
a failing generator records no insight. -/
theorem session_insight_count_spec (a : Analyst) (calls : List AnalyzeCall) :
    (run_analyses a calls).analyses.length = a.analyses.length + calls.length
    ∧ (run_analyses a calls).cognition_base.session_insights.length
        = a.cognition_base.session_insights.length
            + (calls.filter (fun c => generator_ok c.llm)).length := by
  induction calls generalizing a with
  | nil => simp [run_analyses]
  | cons c rest ih =>
    have h1 := analyze_results_analyses_length a c.proposal c.test_result c.validation c.llm c.now
    have h2 := analyze_results_insights_length a c.proposal c.test_result c.validation c.llm c.now
    have hrec := ih (analyze_results a c.proposal c.test_result c.validation c.llm c.now).1
    constructor
    · rw [run_analyses, hrec.1, h1]
      simp
      omega
    · rw [run_analyses, hrec.2, h2]
      by_cases hok : generator_ok c.llm <;> simp [hok, List.filter_cons] <;> omega

/-- Claim C3 (code bug): after one successful analysis of a proposal that
used a strategy, the session log holds an insight whose `strategy` entry is
the non-empty Python list `["Divide and Conquer"]`, and
`get_session_summary` then raises `TypeError: unhashable type: list`
instead of returning the summary record, because it builds a Python `set`
over those list values. -/
theorem session_summary_raises_on_list_strategy :
    get_session_summary
        ((analyze_results empty_analyst sample_proposal sample_test_result sample_validation
            (Except.ok "The division failed on edge cases") "2024-01-01T00:00:00").1).cognition_base
      = Except.error "TypeError: unhashable type: \x27list\x27" := by
  norm_num [analyze_results, add_insight, extract_insight, get_session_summary,
    empty_analyst, seed_cb, sample_proposal, sample_test_result, sample_validation]

/-- Claim C4 counterexample: for the description
`"optimize this search algorithm"` against the seed catalogue,
`get_relevant_strategies` does not return exactly one strategy: it returns
two, because the keyword `"algorithm"` is a substring of Iterative
Refinement tag `"algorithms"`, in addition to `"search"` matching
Divide and Conquer. -/
theorem retrieve_strategies_search_counterexample :
    (get_relevant_strategies seed_cb "optimize this search algorithm").length ≠ 1
    ∧ (get_relevant_strategies seed_cb "optimize this search algorithm").map Strategy.name
        = ["Divide and Conquer", "Iterative Refinement"] := by
  exact ⟨by decide, rfl⟩

/-- Claim C4 (amended): for the description
`"optimize this search algorithm"` against the seed catalogue,
`get_relevant_strategies` returns exactly the two strategies
"Divide and Conquer" (keyword `"search"` matches its tag `"search"`) and
"Iterative Refinement" (keyword `"algorithm"` is a substring of its tag
`"algorithms"`), while "Pattern Recognition" is excluded (no tag contains
any keyword of the description). -/
theorem retrieve_strategies_search_amended :
    get_relevant_strategies seed_cb "optimize this search algorithm"
        = [divide_and_conquer, iterative_refinement]
    ∧ pattern_recognition ∉ get_relevant_strategies seed_cb "optimize this search algorithm" := by
  exact ⟨rfl, by decide⟩

/-- Claim C5: when the generator fails during analysis, `analyze_results`
still returns an Analysis (never propagates the failure): the degraded
record field `analysis` states the failure reason plus the raw
success/fail outcome, the record is appended to the history, and its
iteration, success flag, test result and validation coincide with what the
non-degraded path would have produced from the same inputs. -/
theorem analyze_error_spec (a : Analyst) (p : Proposal) (t : TestResult) (v : Validation)
    (e s now : String) :
    (analyze_results a p t v (Except.error e) now).2.analysis
        = "Analysis failed: " ++ e ++ ". Test result: "
            ++ (if t.success then "Success" else "Failed")
    ∧ (analyze_results a p t v (Except.error e) now).1.analyses
        = a.analyses ++ [(analyze_results a p t v (Except.error e) now).2]
    ∧ (analyze_results a p t v (Except.error e) now).2.iteration
        = (analyze_results a p t v (Except.ok s) now).2.iteration
    ∧ (analyze_results a p t v (Except.error e) now).2.success
        = (analyze_results a p t v (Except.ok s) now).2.success
    ∧ (analyze_results a p t v (Except.error e) now).2.test_result
        = (analyze_results a p t v (Except.ok s) now).2.test_result
    ∧ (analyze_results a p t v (Except.error e) now).2.validation
        = (analyze_results a p t v (Except.ok s) now).2.validation := by
  exact ⟨rfl, rfl, rfl, rfl, rfl, rfl⟩

/-- Claim C6: a successful `propose_solution` followed immediately by a
successful `refine_proposal` on its result yields a refined proposal whose
iteration is the proposed iteration plus one, whose `refined_from` is the
proposed iteration, with the same goal, and with `strategies_used` copied
unchanged from the original proposal (refinement does not re-query
strategies). -/
theorem propose_then_refine_spec (r : Researcher) (goal s1 s2 : String)
    (feedback : TestResult) :
    ∃ r1 p r2 q,
      propose_solution r goal (Except.ok s1) = Except.ok (r1, p)
      ∧ refine_proposal r1 p feedback (Except.ok s2) = Except.ok (r2, q)
      ∧ q.iteration = p.iteration + 1
      ∧ q.refined_from = some p.iteration
      ∧ q.goal = p.goal
      ∧ p.goal = goal
      ∧ q.strategies_used = p.strategies_used := by
  exact ⟨_, _, _, _, rfl, rfl, rfl, rfl, rfl, rfl, rfl⟩

/-- Claim C7: `get_relevant_strategies` is deterministic and idempotent (it
reads only the catalogue and returns the same sequence on a repeated call
with an unchanged catalogue — in the embedding it is a pure function of
them), its result is a sublist of the catalogue (hence order-preserving and
containing each catalogue entry at most once, in particular duplicate-free
whenever the catalogue is), and when no strategy matches it returns the
empty sequence rather than an error. -/
theorem get_relevant_strategies_props (cb : CognitionBase) (d : String) :
    get_relevant_strategies cb d = get_relevant_strategies cb d
    ∧ (get_relevant_strategies cb d).Sublist cb.knowledge.strategies
    ∧ (cb.knowledge.strategies.Nodup → (get_relevant_strategies cb d).Nodup)
    ∧ ((∀ s ∈ cb.knowledge.strategies,
          strategy_matches (py_split (py_lower d)) s = false) →
        get_relevant_strategies cb d = []) := by
  have hsub : (get_relevant_strategies cb d).Sublist cb.knowledge.strategies :=
    List.filter_sublist _
  refine ⟨rfl, hsub, fun hnd => hnd.sublist hsub, fun h => ?_⟩
  exact List.filter_eq_nil_iff.mpr (fun s hs => by simp [h s hs])

/-- Witness for C7 at a concrete input: no seed strategy matches the
description `"quantum chromodynamics"`, so the result is the empty list
(and trivially duplicate-free). -/
theorem get_relevant_strategies_props_witness :
    get_relevant_strategies seed_cb "quantum chromodynamics" = []
    ∧ (get_relevant_strategies seed_cb "quantum chromodynamics").Nodup :=
  ⟨(get_relevant_strategies_props seed_cb "quantum chromodynamics").2.2.2 (by decide),
    (get_relevant_strategies_props seed_cb "quantum chromodynamics").2.2.1 (by decide)⟩

/-- Claim C8: when the knowledge file is absent, or reading/parsing it
raises, `load_knowledge` returns the seed catalogue without failing the
caller, and that seed contains exactly the three strategies named
"Divide and Conquer", "Iterative Refinement" and "Pattern Recognition". -/
theorem load_knowledge_fallback_spec :
    load_knowledge none = seed_knowledge
    ∧ (∀ e : String, load_knowledge (some (Except.error e)) = seed_knowledge)
    ∧ seed_knowledge.strategies.map Strategy.name
        = ["Divide and Conquer", "Iterative Refinement", "Pattern Recognition"] := by
  exact ⟨rfl, fun e => rfl, rfl⟩

/-- Claim C9: `recommend_next_action` is the decision table of analyst.py
lines 142-156 over the analysis history: no data / goal achieved / refine
the logic / reconsider fundamentally (last failed and at least 5 analyses)
/ refine from error feedback (last failed and fewer than 5 analyses). -/
theorem recommend_next_action_spec (analyses : List Analysis) :
    (analyses = [] →
        recommend_next_action analyses = "No data available. Start with a new proposal.")
    ∧ (∀ last_analysis, analyses.getLast? = some last_analysis →
        (last_analysis.success = true → last_analysis.validation.meets_goal = true →
            recommend_next_action analyses
              = "Goal achieved! Consider optimizing the solution or trying a more complex goal.")
        ∧ (last_analysis.success = true → last_analysis.validation.meets_goal = false →
            recommend_next_action analyses
              = "Solution runs but doesn\x27t fully meet the goal. Refine the logic.")
        ∧ (last_analysis.success = false → 5 ≤ analyses.length →
            recommend_next_action analyses
              = "Multiple attempts failed. Consider revising the goal or approach fundamentally.")
        ∧ (last_analysis.success = false → analyses.length < 5 →
            recommend_next_action analyses
              = "Refine the current approach based on the error feedback.")) := by
  constructor
  · intro h
    subst h
    rfl
  · intro last_analysis hlast
    refine ⟨?_, ?_, ?_, ?_⟩
    · intro h1 h2
      simp [recommend_next_action, hlast, h1, h2]
    · intro h1 h2
      simp [recommend_next_action, hlast, h1, h2]
    · intro h1 h2
      simp [recommend_next_action, hlast, h1, h2]
    · intro h1 h2
      have h3 : ¬ (5 ≤ analyses.length) := by omega
      simp [recommend_next_action, hlast, h1, h3]

/-- Witness for C9 at a concrete input: after five consecutive failed
analyses the "reconsider fundamentally" recommendation is returned. -/
theorem recommend_next_action_spec_witness :
    recommend_next_action (List.replicate 5 failed_analysis)
      = "Multiple attempts failed. Consider revising the goal or approach fundamentally." :=
  (((recommend_next_action_spec (List.replicate 5 failed_analysis)).2 failed_analysis
      (by rfl)).2.2.1) rfl (by simp)

/-- Claim C10: when the generator call raises during `propose_solution` or
`refine_proposal` the error propagates before any proposal is appended, so
the proposal history is unchanged, and the next successful proposal is
numbered from the unchanged history: `iteration = history length + 1`. -/
theorem generator_failure_leaves_history_spec (r : Researcher) (goal goal2 : String)
    (p : Proposal) (feedback : TestResult) (e s : String) :
    propose_solution r goal (Except.error e) = Except.error e
    ∧ refine_proposal r p feedback (Except.error e) = Except.error e
    ∧ ∃ r2 q,
        propose_solution r goal2 (Except.ok s) = Except.ok (r2, q)
        ∧ q.iteration = r.proposal_history.length + 1 := by
  exact ⟨rfl, rfl, _, _, rfl, rfl⟩

end ASIGO
